import Mathlib

/-!
Shallow embedding of the journalowl-mcp adapter (TypeScript sources
`src/types/index.ts`, `src/client/journalOwlClient.ts`, `src/tools/index.ts`,
`src/resources/index.ts`, `src/index.ts`) and proofs about the claims of its
specification.

Modelling conventions:
* JavaScript strings are Lean `String`s; the `substring` code-unit/character
  distinction only matters for astral-plane characters and is not exercised
  by any claim.
* JavaScript numbers occurring in the data model (sentiment scores) are
  modelled as `Rat`; the claims only compare them against decimal literals
  that doubles order the same way.  Pagination counters are `Nat`.
* Thrown JavaScript errors are an explicit `Except` error channel.  The
  constructors of `JsError` record which `new Error(...)` site (or runtime
  `TypeError`) produced the value; `errMessage` renders the `.message`
  string the TypeScript code builds.
* `async`/`await` sequencing is ordinary sequential evaluation.
* Dates rendered with `new Date(x).toLocaleDateString()` go through an
  arbitrary formatting function `fmt : String → String`, since locale
  rendering is an external library facility no claim constrains.
-/

/-- Entry lifecycle status, from the `status` union in `src/types/index.ts`. -/
inductive EntryStatus where
  | draft
  | in_progress
  | completed
deriving DecidableEq, Repr

/-- Rendering of an `EntryStatus` as the literal string the backend uses
(template interpolation of the union value). -/
def statusStr : EntryStatus → String
  | .draft => "draft"
  | .in_progress => "in_progress"
  | .completed => "completed"

/-- EntryAnalysis from `src/types/index.ts` (all fields optional). -/
structure EntryAnalysis where
  sentiment : Option Rat := none
  themes : Option (List String) := none
  insights : Option (List String) := none
deriving DecidableEq, Repr

/-- JournalEntry from `src/types/index.ts`. -/
structure JournalEntry where
  id : String
  title : String
  content : String
  mood : Option String := none
  tags : List String := []
  status : EntryStatus := .draft
  date : String := ""
  createdAt : String := ""
  updatedAt : String := ""
  analysis : Option EntryAnalysis := none
deriving DecidableEq, Repr

/-- WeeklyReview from `src/types/index.ts`. -/
structure WeeklyReview where
  id : String
  weekStart : String := ""
  weekEnd : String := ""
  summary : String := ""
  themes : List String := []
  emotionalTrend : String := ""
  insights : List String := []
  entriesCount : Nat := 0
  createdAt : String := ""
deriving DecidableEq, Repr

/-- UserProfile from `src/types/index.ts`. -/
structure UserProfile where
  id : String
  username : String := ""
  email : String := ""
  timezone : String := ""
  journalingSince : String := ""
  totalEntries : Nat := 0
  currentStreak : Nat := 0
  preferredWritingStyle : Option String := none
deriving DecidableEq, Repr

/-- WritingStyle from `src/types/index.ts`. -/
structure WritingStyle where
  currentStyle : String := ""
  styleDescription : String := ""
  voiceTone : String := ""
  suggestions : List String := []
deriving DecidableEq, Repr

/-- Pagination block of the list endpoints. -/
structure Pagination where
  total : Nat := 0
  limit : Nat := 0
  offset : Nat := 0
  hasMore : Bool := false
deriving DecidableEq, Repr

/-- ListEntriesParams from `src/types/index.ts`; the adapter forwards the
tool arguments into this shape, so every field is optional.  `status` is
kept as a plain string because the handler passes it through with an
`as any` cast. -/
structure ListEntriesParams where
  limit : Option Nat := none
  offset : Option Nat := none
  from_date : Option String := none
  to_date : Option String := none
  status : Option String := none
  tags : Option String := none
deriving DecidableEq, Repr

/-- The runtime payload `handleCreateEntry` posts.  The TypeScript interface
`CreateEntryInput` lacks the `date` field, but the handler body includes
`date: args.date` in the object literal it sends, so the runtime object has
it; the fields are optional because the argument bag may omit them. -/
structure CreateEntryInput where
  content : Option String := none
  mood : Option String := none
  tags : Option (List String) := none
  date : Option String := none
deriving DecidableEq, Repr

/-- SearchEntriesInput from `src/types/index.ts` (query required in the
TypeScript type, but the runtime argument bag may omit it). -/
structure SearchEntriesInput where
  query : Option String := none
  limit : Option Nat := none
deriving DecidableEq, Repr

/-- ListReviewsParams from `src/types/index.ts`. -/
structure ListReviewsParams where
  limit : Option Nat := none
  offset : Option Nat := none
deriving DecidableEq, Repr

/-- The `status` discriminator of the backend envelope. -/
inductive EnvStatus where
  | success
  | error
deriving DecidableEq, Repr

/-- ApiResponse envelope `{status, data?, message?}` from `src/types/index.ts`. -/
structure Envelope (α : Type) where
  status : EnvStatus
  data : Option α := none
  message : Option String := none
deriving DecidableEq, Repr

/-- Data payload of GET `/mcp/entries`. -/
structure ListEntriesData where
  entries : List JournalEntry
  pagination : Pagination
deriving DecidableEq, Repr

/-- Data payload of GET/POST `/mcp/entries/:id` and `/mcp/entries`. -/
structure GetEntryData where
  entry : JournalEntry
deriving DecidableEq, Repr

/-- Data payload of POST `/mcp/entries/search`. -/
structure SearchData where
  query : String := ""
  results : List JournalEntry := []
  count : Nat := 0
deriving DecidableEq, Repr

/-- Data payload of GET `/mcp/reviews/weekly`. -/
structure ListReviewsData where
  reviews : List WeeklyReview
  pagination : Pagination
deriving DecidableEq, Repr

/-- Data payload of GET `/mcp/reviews/weekly/:id`. -/
structure ReviewData where
  review : WeeklyReview
deriving DecidableEq, Repr

/-- Data payload of GET `/mcp/user/profile`. -/
structure ProfileData where
  profile : UserProfile
deriving DecidableEq, Repr

/-- Data payload of GET `/mcp/user/style`. -/
structure StyleData where
  style : WritingStyle
deriving DecidableEq, Repr

/-- Outcome of one axios exchange, before the response interceptor runs.
`ok body` is a 2xx response with parsed JSON body (axios' default
`validateStatus` fulfils exactly those); `httpError` is a received response
with a failure status, carrying the `message` field of the parsed error body
when one is present (`error.response.data?.message`) and the message of the
axios error object itself; `networkError` is `error.request` with no
response; `setupError` is any other local failure. -/
inductive AxiosResult (α : Type) where
  | ok (body : α)
  | httpError (status : Nat) (bodyMessage : Option String) (axiosMessage : String)
  | networkError
  | setupError (message : String)
deriving DecidableEq, Repr

/-- Thrown JavaScript error values.  The first three constructors record the
three `new Error(...)` sites of the response interceptor in
`src/client/journalOwlClient.ts`; `typeError` is a runtime `TypeError`
(property access on `undefined`, or calling a non-function); `otherError`
covers the remaining `new Error(...)` sites (unknown tool / unknown
resource). -/
inductive JsError where
  | apiError (status : Nat) (message : String)
  | unreachable
  | requestFailed (message : String)
  | typeError (message : String)
  | otherError (message : String)
deriving DecidableEq, Repr

/-- Rendering of the `.message` of a thrown error, matching the strings the
TypeScript sites build. -/
def errMessage : JsError → String
  | .apiError s m => "JournalOwl API Error (" ++ toString s ++ "): " ++ m
  | .unreachable => "JournalOwl API is unreachable. Please check your network connection."
  | .requestFailed m => "Request failed: " ++ m
  | .typeError m => m
  | .otherError m => m

/-- JavaScript `a || b` on a string `a`: the empty string is falsy. -/
def jsOr (s alt : String) : String := if s = "" then alt else s

/-- JavaScript `a?.m || b` where the whole of `a?.m` may be `undefined`. -/
def jsOrOpt (o : Option String) (alt : String) : String :=
  match o with
  | some s => jsOr s alt
  | none => alt

/-- Response interceptor of `JournalOwlClient` (lines 180-192 of the client):
passes 2xx responses through, and converts the three axios failure shapes
into the three thrown error kinds.  The message of the API error is
`error.response.data?.message || error.message`. -/
def intercept {α : Type} : AxiosResult α → Except JsError α
  | .ok body => .ok body
  | .httpError status bodyMessage axiosMessage =>
      .error (.apiError status (jsOrOpt bodyMessage axiosMessage))
  | .networkError => .error .unreachable
  | .setupError m => .error (.requestFailed m)

/-- Client method `listEntries`: `return response.data.data!;` — the
non-null assertion is erased at runtime, so an absent `data` field is
returned as `undefined` (here: `none`).  No envelope status check occurs. -/
def clientListEntries (r : AxiosResult (Envelope ListEntriesData)) :
    Except JsError (Option ListEntriesData) :=
  match intercept r with
  | .error e => .error e
  | .ok env => .ok env.data

/-- Client method `getEntry`: `return response.data.data!.entry;` — when
`data` is absent the property read on `undefined` throws a TypeError. -/
def clientGetEntry (r : AxiosResult (Envelope GetEntryData)) :
    Except JsError JournalEntry :=
  match intercept r with
  | .error e => .error e
  | .ok env =>
    match env.data with
    | some d => .ok d.entry
    | none => .error (.typeError "Cannot read properties of undefined (reading entry)")

/-- Client method `createEntry`: `return response.data.data!.entry;`. -/
def clientCreateEntry (r : AxiosResult (Envelope GetEntryData)) :
    Except JsError JournalEntry :=
  match intercept r with
  | .error e => .error e
  | .ok env =>
    match env.data with
    | some d => .ok d.entry
    | none => .error (.typeError "Cannot read properties of undefined (reading entry)")

/-- Client method `searchEntries`: `return response.data.data!;`. -/
def clientSearchEntries (r : AxiosResult (Envelope SearchData)) :
    Except JsError (Option SearchData) :=
  match intercept r with
  | .error e => .error e
  | .ok env => .ok env.data

/-- Client method `listWeeklyReviews`: `return response.data.data!;`. -/
def clientListWeeklyReviews (r : AxiosResult (Envelope ListReviewsData)) :
    Except JsError (Option ListReviewsData) :=
  match intercept r with
  | .error e => .error e
  | .ok env => .ok env.data

/-- Client method `getWeeklyReview`: `return response.data.data!.review;`. -/
def clientGetWeeklyReview (r : AxiosResult (Envelope ReviewData)) :
    Except JsError WeeklyReview :=
  match intercept r with
  | .error e => .error e
  | .ok env =>
    match env.data with
    | some d => .ok d.review
    | none => .error (.typeError "Cannot read properties of undefined (reading review)")

/-- Client method `getUserProfile`: `return response.data.data!.profile;`. -/
def clientGetUserProfile (r : AxiosResult (Envelope ProfileData)) :
    Except JsError UserProfile :=
  match intercept r with
  | .error e => .error e
  | .ok env =>
    match env.data with
    | some d => .ok d.profile
    | none => .error (.typeError "Cannot read properties of undefined (reading profile)")

/-- Client method `getWritingStyle`: `return response.data.data!.style;`. -/
def clientGetWritingStyle (r : AxiosResult (Envelope StyleData)) :
    Except JsError WritingStyle :=
  match intercept r with
  | .error e => .error e
  | .ok env =>
    match env.data with
    | some d => .ok d.style
    | none => .error (.typeError "Cannot read properties of undefined (reading style)")

/-- The member names the `JournalOwlClient` class body actually declares
(`src/client/journalOwlClient.ts`, lines 161-304).  There is no
`finalizeEntry` among them. -/
def clientJsMethods : List String :=
  ["listEntries", "getEntry", "createEntry", "searchEntries",
   "listWeeklyReviews", "getWeeklyReview", "getUserProfile", "getWritingStyle"]

/-- Minimal JavaScript value universe, used to embed the dynamic property
accesses `result.entry` / `result.metadata` of `handleCreateEntry`, which
read fields that do not exist on the value the client returns.  `null` is
not modelled (no reachable code produces it). -/
inductive JsValue where
  | undefined
  | str (s : String)
  | num (q : Rat)
  | boolean (b : Bool)
  | arr (elems : List JsValue)
  | obj (fields : List (String × JsValue))

/-- JavaScript property read `v.p`: throws a TypeError on `undefined`,
looks the key up on objects (absent key gives `undefined`), and is
approximated as `undefined` on the remaining primitives (none of the keys
the embedded code reads exist on their prototypes). -/
def jsGetProp : JsValue → String → Except JsError JsValue
  | .undefined, p =>
      .error (.typeError ("Cannot read properties of undefined (reading " ++ p ++ ")"))
  | .obj fields, p => .ok ((fields.lookup p).getD .undefined)
  | _, _ => .ok .undefined

/-- JavaScript truthiness. -/
def jsTruthy : JsValue → Bool
  | .undefined => false
  | .str s => if s = "" then false else true
  | .num q => if q = 0 then false else true
  | .boolean b => b
  | .arr _ => true
  | .obj _ => true

/-- Separator join, embedding `Array.prototype.join(sep)`. -/
def joinSep (sep : String) : List String → String
  | [] => ""
  | [x] => x
  | x :: xs => x ++ sep ++ joinSep sep xs

/-- Decimal rendering of a rational without a fractional part, used only to
interpolate numbers inside template strings on unreachable paths; the exact
JavaScript double-to-string algorithm is not modelled. -/
def ratToString (q : Rat) : String :=
  if q.den = 1 then toString q.num else toString q

mutual

/-- JavaScript template-string interpolation `String(v)` of a value. -/
def jsInterp : JsValue → String
  | .undefined => "undefined"
  | .str s => s
  | .num q => ratToString q
  | .boolean b => if b then "true" else "false"
  | .arr xs => jsInterpList xs
  | .obj _ => "[object Object]"

/-- Interpolation of an array (comma join, as `Array.prototype.toString`). -/
def jsInterpList : List JsValue → String
  | [] => ""
  | [x] => jsInterp x
  | x :: xs => jsInterp x ++ "," ++ jsInterpList xs

end

/-- JavaScript `v.length` read: throws on `undefined`, counts elements of
arrays and characters of strings, and is approximated as `0` for the
remaining shapes (where it is `undefined`, which compares to `0 > 0` the
same way in the one comparison the embedded code makes). -/
def jsLengthOf : JsValue → Except JsError Nat
  | .undefined => .error (.typeError "Cannot read properties of undefined (reading length)")
  | .arr xs => .ok xs.length
  | .str s => .ok s.length
  | _ => .ok 0

/-- JavaScript `v.join(sep)` on a value expected to be an array. -/
def jsJoinArr (sep : String) : JsValue → String
  | .arr xs => joinSep sep (xs.map jsInterp)
  | _ => ""

/-- Conversion of an `Option` into a JavaScript field value. -/
def optToJs {α : Type} (f : α → JsValue) : Option α → JsValue
  | some a => f a
  | none => .undefined

/-- The runtime object shape of an `EntryAnalysis`. -/
def analysisToJs (a : EntryAnalysis) : JsValue :=
  .obj [("sentiment", optToJs (fun q => .num q) a.sentiment),
        ("themes", optToJs (fun l => .arr (l.map JsValue.str)) a.themes),
        ("insights", optToJs (fun l => .arr (l.map JsValue.str)) a.insights)]

/-- The runtime object shape of a `JournalEntry`: exactly the fields of the
interface, no `entry` or `metadata` key among them. -/
def journalEntryToJs (e : JournalEntry) : JsValue :=
  .obj [("id", .str e.id), ("title", .str e.title), ("content", .str e.content),
        ("mood", optToJs JsValue.str e.mood),
        ("tags", .arr (e.tags.map JsValue.str)),
        ("status", .str (statusStr e.status)),
        ("date", .str e.date), ("createdAt", .str e.createdAt),
        ("updatedAt", .str e.updatedAt),
        ("analysis", optToJs analysisToJs e.analysis)]

/-- The argument bag of a tool call (`Record<string, unknown>`), restricted
to the keys the seven handlers read.  Every field is optional because the
protocol runtime may omit any of them.  The JavaScript bag uses the single
key `tags` both for the string-array argument of `journal_create_entry` and
for the comma-separated filter string of `journal_list_entries`; the two
typings get separate fields here (`tags`, `tagsFilter`) since no call mixes
them. -/
structure ToolArgs where
  content : Option String := none
  mood : Option String := none
  tags : Option (List String) := none
  tagsFilter : Option String := none
  date : Option String := none
  entry_id : Option String := none
  include_analysis : Option Bool := none
  limit : Option Nat := none
  offset : Option Nat := none
  from_date : Option String := none
  to_date : Option String := none
  status : Option String := none
  query : Option String := none
  week : Option String := none
deriving DecidableEq, Repr

/-- Template interpolation of a possibly-missing string argument. -/
def optInterp (o : Option String) : String := o.getD "undefined"

/-- One outbound client call, recording the method and the arguments the
handler passed; handlers are paired with the list of calls they make so
that call-count claims are statable. -/
inductive ClientCall where
  | listEntries (params : ListEntriesParams)
  | getEntry (entry_id : Option String) (includeAnalysis : Bool)
  | createEntry (input : CreateEntryInput)
  | searchEntries (input : SearchEntriesInput)
  | listWeeklyReviews (params : ListReviewsParams)
  | getWeeklyReview (reviewId : String)
  | getUserProfile
  | getWritingStyle
deriving DecidableEq, Repr

/-- The backend as a response oracle: what each HTTP endpoint answers for
given request parameters.  Handlers consult it through the client methods
above. -/
structure Backend where
  listEntriesR : ListEntriesParams → AxiosResult (Envelope ListEntriesData)
  getEntryR : Option String → Bool → AxiosResult (Envelope GetEntryData)
  createEntryR : CreateEntryInput → AxiosResult (Envelope GetEntryData)
  searchEntriesR : SearchEntriesInput → AxiosResult (Envelope SearchData)
  listWeeklyReviewsR : ListReviewsParams → AxiosResult (Envelope ListReviewsData)
  getWeeklyReviewR : String → AxiosResult (Envelope ReviewData)
  getUserProfileR : AxiosResult (Envelope ProfileData)
  getWritingStyleR : AxiosResult (Envelope StyleData)

/-- The `ListEntriesParams` object `handleListEntries` builds from the
argument bag (lines 299-306 of `src/tools/index.ts`). -/
def paramsOfArgs (args : ToolArgs) : ListEntriesParams :=
  { limit := args.limit, offset := args.offset, from_date := args.from_date,
    to_date := args.to_date, status := args.status, tags := args.tagsFilter }

/-- The `SearchEntriesInput` object `handleSearchEntries` builds. -/
def searchInputOf (args : ToolArgs) : SearchEntriesInput :=
  { query := args.query, limit := args.limit }

/-- The `CreateEntryInput` object `handleCreateEntry` posts. -/
def createInputOf (args : ToolArgs) : CreateEntryInput :=
  { content := args.content, mood := args.mood, tags := args.tags, date := args.date }

/-- The `include_analysis` default of `handleGetEntry`:
`args.include_analysis !== false`. -/
def inclAnalysisOf (args : ToolArgs) : Bool :=
  match args.include_analysis with
  | some false => false
  | _ => true

/-- JavaScript `(args.offset || 0)`; for natural numbers `getD 0` agrees
with the falsy check because the only falsy number handed over is `0`. -/
def jsOrZero (o : Option Nat) : Nat := o.getD 0

/-- One list item of the `journal_list_entries` rendering
(lines 317-320 of `src/tools/index.ts`). -/
def renderListItem (fmt : String → String) (e : JournalEntry) : String :=
  ("- **" ++ e.title ++ "** (" ++ fmt e.date ++ ")\n")
  ++ ("  ID: " ++ e.id ++ " | Status: " ++ statusStr e.status
      ++ " | Tags: " ++ jsOr (joinSep ", " e.tags) "none")

/-- The trailing pagination hint of `journal_list_entries`
(line 326 of `src/tools/index.ts`). -/
def listHint (args : ToolArgs) (shown : Nat) : String :=
  "\n\nMore entries available. Use offset=" ++ toString (jsOrZero args.offset + shown)
  ++ " to see more."

/-- Tool handler `handleListEntries` paired with its outbound calls. -/
def handleListEntries (b : Backend) (fmt : String → String) (args : ToolArgs) :
    Except JsError String × List ClientCall :=
  let p := paramsOfArgs args
  let call := ClientCall.listEntries p
  match clientListEntries (b.listEntriesR p) with
  | .error e => (.error e, [call])
  | .ok none =>
      (.error (.typeError "Cannot read properties of undefined (reading entries)"), [call])
  | .ok (some r) =>
    if r.entries.length = 0 then
      (.ok "No journal entries found matching your criteria.", [call])
    else
      (.ok (("Found " ++ toString r.pagination.total ++ " entries (showing "
             ++ toString r.entries.length ++ "):\n\n")
            ++ joinSep "\n\n" (r.entries.map (renderListItem fmt))
            ++ (if r.pagination.hasMore then listHint args r.entries.length else "")),
       [call])

/-- JavaScript `String.prototype.substring(0, n)` (character-counted; the
code-unit distinction only matters for astral-plane characters). -/
def jsSubstringTo (s : String) (n : Nat) : String := String.mk (s.data.take n)

/-- One result item of the `journal_search` rendering
(lines 431-435 of `src/tools/index.ts`): the preview is
`entry.content.substring(0, 150)` with `...` appended unconditionally. -/
def renderSearchItem (fmt : String → String) (e : JournalEntry) : String :=
  ("- **" ++ e.title ++ "** (" ++ fmt e.date ++ ")\n")
  ++ ("  ID: " ++ e.id ++ "\n")
  ++ ("  Preview: " ++ (jsSubstringTo e.content 150 ++ "..."))

/-- Tool handler `handleSearchEntries` paired with its outbound calls. -/
def handleSearchEntries (b : Backend) (fmt : String → String) (args : ToolArgs) :
    Except JsError String × List ClientCall :=
  let input := searchInputOf args
  let call := ClientCall.searchEntries input
  match clientSearchEntries (b.searchEntriesR input) with
  | .error e => (.error e, [call])
  | .ok none =>
      (.error (.typeError "Cannot read properties of undefined (reading count)"), [call])
  | .ok (some r) =>
    if r.count = 0 then
      (.ok ("No entries found matching \"" ++ optInterp args.query ++ "\"."), [call])
    else
      (.ok (("Found " ++ toString r.count ++ " entries for \""
             ++ optInterp args.query ++ "\":\n\n")
            ++ joinSep "\n\n" (r.results.map (renderSearchItem fmt))),
       [call])

/-- Sentiment thresholding of `handleGetEntry` (lines 370-371 of
`src/tools/index.ts`): strictly greater than `0.3` is Positive, strictly
less than `-0.3` is Negative, everything else Neutral. -/
def sentimentLabel (s : Rat) : String :=
  if s > 3/10 then "Positive"
  else if s < -3/10 then "Negative"
  else "Neutral"

/-- Decimal rendering of a rational to two places, modelling
`Number.prototype.toFixed(2)` on the scores (binary-double artifacts of
`toFixed` are not modelled; no claim depends on this string). -/
def toFixed2 (q : Rat) : String :=
  let c : Int := round (q * 100)
  let a := c.natAbs
  (if c < 0 then "-" else "") ++ toString (a / 100) ++ "."
  ++ (if a % 100 < 10 then "0" else "") ++ toString (a % 100)

/-- Full rendering of `journal_get_entry` (lines 360-380 of
`src/tools/index.ts`). -/
def renderGetEntry (fmt : String → String) (e : JournalEntry) : String :=
  let base :=
    ("# " ++ e.title ++ "\n\n")
    ++ ("**Date:** " ++ fmt e.date ++ "\n")
    ++ ("**Mood:** " ++ jsOrOpt e.mood "Not specified" ++ "\n")
    ++ ("**Tags:** " ++ jsOr (joinSep ", " e.tags) "None" ++ "\n")
    ++ ("**Status:** " ++ statusStr e.status ++ "\n\n")
    ++ ("---\n\n" ++ e.content)
  match e.analysis with
  | none => base
  | some a =>
    let t1 := base ++ "\n\n---\n\n## AI Analysis\n\n"
    let t2 :=
      match a.sentiment with
      | none => t1
      | some s =>
          t1 ++ ("**Sentiment:** " ++ sentimentLabel s ++ " (" ++ toFixed2 s ++ ")\n\n")
    let t3 :=
      match a.themes with
      | some themes =>
          if themes.length > 0 then
            t2 ++ ("**Themes:** " ++ joinSep ", " themes ++ "\n\n")
          else t2
      | none => t2
    match a.insights with
    | some insights =>
        if insights.length > 0 then
          t3 ++ ("**Insights:**\n" ++ joinSep "\n" (insights.map (fun i => "- " ++ i)))
        else t3
    | none => t3

/-- Tool handler `handleGetEntry` paired with its outbound calls. -/
def handleGetEntry (b : Backend) (fmt : String → String) (args : ToolArgs) :
    Except JsError String × List ClientCall :=
  let incl := inclAnalysisOf args
  let call := ClientCall.getEntry args.entry_id incl
  match clientGetEntry (b.getEntryR args.entry_id incl) with
  | .error e => (.error e, [call])
  | .ok entry => (.ok (renderGetEntry fmt entry), [call])

/-- Unreachable rendering tail of `handleCreateEntry`, embedded with the
dynamic JavaScript accesses the source performs on `entry` and `metadata`
(lines 165-181 of `src/tools/index.ts`).  Template-string interpolation
evaluates its holes left to right, so the first access is `entry.id`. -/
def renderCreateText (fmt : String → String) (entryJs metadataJs : JsValue) :
    Except JsError String := do
  let idV ← jsGetProp entryJs "id"
  let titleV ← jsGetProp entryJs "title"
  let statusV ← jsGetProp entryJs "status"
  let dateV ← jsGetProp entryJs "date"
  let moodV ← jsGetProp entryJs "mood"
  let tagsV ← jsGetProp entryJs "tags"
  let tagsLen ← jsLengthOf tagsV
  let base :=
    ("Journal entry created!\n\n**ID:** " ++ jsInterp idV ++ "\n")
    ++ ("**Title:** " ++ jsInterp titleV ++ "\n")
    ++ ("**Status:** " ++ jsInterp statusV
        ++ " (use journal_finalize_entry to generate AI analysis)\n")
    ++ ("**Date:** " ++ fmt (jsInterp dateV) ++ "\n")
    ++ ("**Mood:** " ++ (if jsTruthy moodV then jsInterp moodV else "Not specified") ++ "\n")
    ++ ("**Tags:** " ++ (if tagsLen > 0 then jsJoinArr ", " tagsV else "None"))
  if jsTruthy metadataJs then
    let tz ← jsGetProp metadataJs "timezone"
    let lang ← jsGetProp metadataJs "language"
    let ws ← jsGetProp metadataJs "writingStyle"
    pure (base ++ ("\n\n**Settings used:**\n- Timezone: " ++ jsInterp tz
          ++ "\n- Language: " ++ jsInterp lang
          ++ "\n- Writing Style: " ++ jsInterp ws))
  else
    pure base

/-- Tool handler `handleCreateEntry` (lines 154-189 of `src/tools/index.ts`)
paired with its outbound calls.  The client method already returns the
unwrapped `JournalEntry`, yet the handler reads `result.entry` and
`result.metadata` off it: those dynamic accesses are embedded through
`journalEntryToJs`. -/
def handleCreateEntry (b : Backend) (fmt : String → String) (args : ToolArgs) :
    Except JsError String × List ClientCall :=
  let input := createInputOf args
  let call := ClientCall.createEntry input
  match clientCreateEntry (b.createEntryR input) with
  | .error e => (.error e, [call])
  | .ok result =>
    let rj := journalEntryToJs result
    match jsGetProp rj "entry" with
    | .error e => (.error e, [call])
    | .ok entryJs =>
      match jsGetProp rj "metadata" with
      | .error e => (.error e, [call])
      | .ok metadataJs =>
        match renderCreateText fmt entryJs metadataJs with
        | .error e => (.error e, [call])
        | .ok text => (.ok text, [call])

/-- Tool handler `handleFinalizeEntry` (lines 210-247 of
`src/tools/index.ts`).  Its first statement is
`await client.finalizeEntry(args.entry_id)`, but the `JournalOwlClient`
class declares no `finalizeEntry` member (see `clientJsMethods`), so the
member read yields `undefined` and the call expression throws a TypeError
before any request is sent; the rendering code below the call is
unreachable and the repository does not even compile under `tsc`
(TS2339).  The embedding therefore evaluates the guarded lookup and never
reaches a client call. -/
def handleFinalizeEntry (args : ToolArgs) : Except JsError String × List ClientCall :=
  if clientJsMethods.contains "finalizeEntry" then
    (.ok (optInterp args.entry_id), [])
  else
    (.error (.typeError "this.client.finalizeEntry is not a function"), [])

/-- Full rendering of `journal_get_weekly_review` (lines 469-475 of
`src/tools/index.ts`). -/
def renderWeeklyReview (fmt : String → String) (r : WeeklyReview) : String :=
  ("# Weekly Review\n\n")
  ++ ("**Period:** " ++ fmt r.weekStart ++ " - " ++ fmt r.weekEnd ++ "\n")
  ++ ("**Entries:** " ++ toString r.entriesCount ++ "\n\n")
  ++ ("## Summary\n\n" ++ r.summary ++ "\n\n")
  ++ ("## Emotional Trend\n\n" ++ r.emotionalTrend ++ "\n\n")
  ++ ("## Key Themes\n\n" ++ joinSep "\n" (r.themes.map (fun t => "- " ++ t)) ++ "\n\n")
  ++ ("## Insights\n\n" ++ joinSep "\n" (r.insights.map (fun i => "- " ++ i)))

/-- Tool handler `handleGetWeeklyReview`: the week argument defaults through
`args.week || 'latest'`. -/
def handleGetWeeklyReview (b : Backend) (fmt : String → String) (args : ToolArgs) :
    Except JsError String × List ClientCall :=
  let week := jsOrOpt args.week "latest"
  let call := ClientCall.getWeeklyReview week
  match clientGetWeeklyReview (b.getWeeklyReviewR week) with
  | .error e => (.error e, [call])
  | .ok r => (.ok (renderWeeklyReview fmt r), [call])

/-- Full rendering of `journal_get_writing_style` (lines 501-506 of
`src/tools/index.ts`). -/
def renderWritingStyle (s : WritingStyle) : String :=
  ("# Your Writing Style\n\n")
  ++ ("**Current Style:** " ++ s.currentStyle ++ "\n\n")
  ++ ("**Description:** " ++ s.styleDescription ++ "\n\n")
  ++ ("**Voice Tone:** " ++ s.voiceTone ++ "\n\n")
  ++ ("## Suggestions for Your Journaling\n\n")
  ++ joinSep "\n" (s.suggestions.map (fun x => "- " ++ x))

/-- Tool handler `handleGetWritingStyle` (takes no arguments). -/
def handleGetWritingStyle (b : Backend) : Except JsError String × List ClientCall :=
  let call := ClientCall.getWritingStyle
  match clientGetWritingStyle b.getWritingStyleR with
  | .error e => (.error e, [call])
  | .ok st => (.ok (renderWritingStyle st), [call])

/-- The seven declared tool names, in catalog order
(`getAllTools` in `src/tools/index.ts`). -/
def toolNames : List String :=
  ["journal_create_entry", "journal_finalize_entry", "journal_list_entries",
   "journal_get_entry", "journal_search", "journal_get_weekly_review",
   "journal_get_writing_style"]

/-- Name dispatch `handleToolCall` (lines 534-557 of `src/tools/index.ts`):
a switch over the tool name with a throwing default. -/
def handleToolCall (b : Backend) (fmt : String → String) (toolName : String)
    (args : ToolArgs) : Except JsError String × List ClientCall :=
  if toolName = "journal_create_entry" then handleCreateEntry b fmt args
  else if toolName = "journal_finalize_entry" then handleFinalizeEntry args
  else if toolName = "journal_list_entries" then handleListEntries b fmt args
  else if toolName = "journal_get_entry" then handleGetEntry b fmt args
  else if toolName = "journal_search" then handleSearchEntries b fmt args
  else if toolName = "journal_get_weekly_review" then handleGetWeeklyReview b fmt args
  else if toolName = "journal_get_writing_style" then handleGetWritingStyle b
  else (.error (.otherError ("Unknown tool: " ++ toolName)), [])

/-- Protocol-level error of the MCP front-end. -/
inductive McpError where
  | internalError (message : String)
deriving DecidableEq, Repr

/-- CallTool request handler of the front-end (`setupHandlers` in
`src/index.ts`, lines 77-86): invokes `handleToolCall` and re-wraps any
thrown error as an internal protocol error carrying the original message. -/
def callToolRequest (b : Backend) (fmt : String → String) (name : String)
    (args : ToolArgs) : Except McpError String × List ClientCall :=
  match handleToolCall b fmt name args with
  | (.ok t, cs) => (.ok t, cs)
  | (.error e, cs) =>
      (.error (.internalError ("Tool " ++ name ++ " failed: " ++ errMessage e)), cs)

/-- One returned MCP resource content block. -/
structure ResourceContents where
  uri : String
  mimeType : String
  text : String
deriving DecidableEq, Repr

/-- Rendering of the profile resource (`handleProfileResource` in
`src/resources/index.ts`). -/
def renderProfile (fmt : String → String) (p : UserProfile) : String :=
  ("JournalOwl User Profile\n=======================\n\n")
  ++ ("Username: " ++ p.username ++ "\n")
  ++ ("Email: " ++ p.email ++ "\n")
  ++ ("Timezone: " ++ p.timezone ++ "\n\n")
  ++ ("Journaling Stats:\n")
  ++ ("- Journaling since: " ++ fmt p.journalingSince ++ "\n")
  ++ ("- Total entries: " ++ toString p.totalEntries ++ "\n")
  ++ ("- Current streak: " ++ toString p.currentStreak ++ " days\n\n")
  ++ ("Preferences:\n")
  ++ ("- Writing style: " ++ jsOrOpt p.preferredWritingStyle "Default" ++ "\n\n")
  ++ "Use this context to personalize your responses when helping with journaling."

/-- Resource handler for `journalowl://user/profile`: one profile call. -/
def handleProfileResource (b : Backend) (fmt : String → String) :
    Except JsError ResourceContents × List ClientCall :=
  match clientGetUserProfile b.getUserProfileR with
  | .error e => (.error e, [ClientCall.getUserProfile])
  | .ok p =>
      (.ok { uri := "journalowl://user/profile", mimeType := "text/plain",
             text := renderProfile fmt p },
       [ClientCall.getUserProfile])

/-- The parameters of the one client call the recent-entries resource makes:
`client.listEntries({ limit: 5 })`. -/
def recentParams : ListEntriesParams := { limit := some 5 }

/-- One item of the recent-entries rendering. -/
def renderRecentItem (fmt : String → String) (e : JournalEntry) : String :=
  ("- " ++ e.title ++ " (" ++ fmt e.date ++ ")\n")
  ++ ("  Mood: " ++ jsOrOpt e.mood "Not specified" ++ "\n")
  ++ ("  Tags: " ++ jsOr (joinSep ", " e.tags) "None" ++ "\n")
  ++ ("  ID: " ++ e.id)

/-- Resource handler for `journalowl://user/recent-entries`
(`handleRecentEntriesResource` in `src/resources/index.ts`). -/
def handleRecentEntriesResource (b : Backend) (fmt : String → String) :
    Except JsError ResourceContents × List ClientCall :=
  let call := ClientCall.listEntries recentParams
  match clientListEntries (b.listEntriesR recentParams) with
  | .error e => (.error e, [call])
  | .ok none =>
      (.error (.typeError "Cannot read properties of undefined (reading entries)"), [call])
  | .ok (some r) =>
    if r.entries.length = 0 then
      (.ok { uri := "journalowl://user/recent-entries", mimeType := "text/plain",
             text := "No recent journal entries found. The user may be new to journaling." },
       [call])
    else
      (.ok { uri := "journalowl://user/recent-entries", mimeType := "text/plain",
             text :=
               ("Recent Journal Entries (Last " ++ toString r.entries.length
                ++ ")\n========================================\n\n")
               ++ joinSep "\n\n" (r.entries.map (renderRecentItem fmt))
               ++ "\n\nUse these entries as context when helping the user with their journaling.\nYou can use journal_get_entry with an ID to read the full content." },
       [call])

/-- The two declared resource URIs (`getAllResources` in
`src/resources/index.ts`). -/
def resourceUris : List String :=
  ["journalowl://user/profile", "journalowl://user/recent-entries"]

/-- URI dispatch `handleResourceRead` (`src/resources/index.ts`,
lines 434-446): a switch over the URI with a throwing default. -/
def handleResourceRead (b : Backend) (fmt : String → String) (uri : String) :
    Except JsError ResourceContents × List ClientCall :=
  if uri = "journalowl://user/profile" then handleProfileResource b fmt
  else if uri = "journalowl://user/recent-entries" then handleRecentEntriesResource b fmt
  else (.error (.otherError ("Unknown resource: " ++ uri)), [])

/-- Substring containment, stated on the character data of the strings. -/
def containsSub (s sub : String) : Prop := sub.data <:+: s.data

/-- Backend oracle whose every endpoint fails at the network level; sample
backends below override single endpoints. -/
def defaultBackend : Backend :=
  { listEntriesR := fun _ => .networkError,
    getEntryR := fun _ _ => .networkError,
    createEntryR := fun _ => .networkError,
    searchEntriesR := fun _ => .networkError,
    listWeeklyReviewsR := fun _ => .networkError,
    getWeeklyReviewR := fun _ => .networkError,
    getUserProfileR := .networkError,
    getWritingStyleR := .networkError }

/-- Sample analysis used by the concrete witnesses. -/
def sampleAnalysis : EntryAnalysis :=
  { sentiment := some (1/2), themes := some ["focus"],
    insights := some ["Keep a steady routine"] }

/-- Sample entry used by the concrete witnesses. -/
def sampleEntry : JournalEntry :=
  { id := "e1", title := "A good day", content := "Short content",
    mood := some "calm", tags := ["work"], status := .completed,
    date := "2024-01-15", analysis := some sampleAnalysis }

/-- Backend whose create endpoint succeeds with `sampleEntry`. -/
def createBackend : Backend :=
  { defaultBackend with
    createEntryR := fun _ =>
      .ok { status := .success, data := some { entry := sampleEntry }, message := none } }

/-- Backend whose get-entry endpoint succeeds with `sampleEntry`. -/
def getEntryBackend : Backend :=
  { defaultBackend with
    getEntryR := fun _ _ =>
      .ok { status := .success, data := some { entry := sampleEntry }, message := none } }

/-- Backend whose search endpoint returns one hit. -/
def searchBackend : Backend :=
  { defaultBackend with
    searchEntriesR := fun _ =>
      .ok { status := .success,
            data := some { query := "day", results := [sampleEntry], count := 1 },
            message := none } }

/-- Sample non-empty page used by the list witness. -/
def listData9 : ListEntriesData :=
  { entries := [sampleEntry],
    pagination := { total := 3, limit := 1, offset := 0, hasMore := true } }

/-- Backend whose list endpoint returns `listData9`. -/
def listBackend : Backend :=
  { defaultBackend with
    listEntriesR := fun _ =>
      .ok { status := .success, data := some listData9, message := none } }

/-- An empty page. -/
def emptyListData : ListEntriesData := { entries := [], pagination := {} }

/-- An empty search result. -/
def emptySearchData : SearchData := { query := "sunsets", results := [], count := 0 }

/-- Backend whose list and search endpoints both return empty results. -/
def emptyBackend : Backend :=
  { defaultBackend with
    listEntriesR := fun _ =>
      .ok { status := .success, data := some emptyListData, message := none },
    searchEntriesR := fun _ =>
      .ok { status := .success, data := some emptySearchData, message := none } }

/-- Argument bag carrying only a search query. -/
def searchArgs : ToolArgs := { query := some "sunsets" }

lemma containsSub_append_right {s sub : String} (t : String) (h : containsSub s sub) :
    containsSub (s ++ t) sub := by
  obtain ⟨pre, post, hpre⟩ := h
  exact ⟨pre, post ++ t.data, by simp [String.data_append, ← hpre, List.append_assoc]⟩

lemma containsSub_append_left {s sub : String} (t : String) (h : containsSub s sub) :
    containsSub (t ++ s) sub := by
  obtain ⟨pre, post, hpre⟩ := h
  exact ⟨t.data ++ pre, post, by simp [String.data_append, ← hpre, List.append_assoc]⟩

lemma containsSub_joinSep {α : Type} (sep : String) (f : α → String) (l : List α)
    (x : α) (hx : x ∈ l) (sub : String) (h : containsSub (f x) sub) :
    containsSub (joinSep sep (l.map f)) sub := by
  induction l with
  | nil => exact absurd hx (List.not_mem_nil x)
  | cons y t ih =>
    cases t with
    | nil =>
      have hxy : x = y := by simpa using hx
      simpa [joinSep, ← hxy] using h
    | cons z t2 =>
      rcases List.mem_cons.mp hx with hxy | hxt
      · subst hxy
        exact containsSub_append_right _ (containsSub_append_right _ h)
      · exact containsSub_append_left _ (ih hxt)

/-- Claim C1, counterexample.  A 2xx response whose envelope has
`status = "error"` and no `data` field makes `listEntries` return a value
(`undefined`, i.e. `none`) instead of raising the backend-error case: the
claim that every such envelope is raised as an error is false on the code,
which performs no envelope check at all. -/
theorem envelope_error_status_returns_value :
    clientListEntries
        (.ok { status := .error, data := none, message := some "boom" })
      = .ok none := rfl

/-- Claim C1, amended.  On a 2xx HTTP response every client method returns
the `data` field unconditionally, ignoring the envelope `status`: the three
collection methods return the absent value when `data` is missing, and the
five projecting methods throw a TypeError when `data` is missing and return
the projected field otherwise; the backend-error case is raised only by the
interceptor, for responses with a failure HTTP status. -/
theorem client_methods_unwrap_without_envelope_check
    (e1 : Envelope ListEntriesData) (e2 e3 : Envelope GetEntryData)
    (e4 : Envelope SearchData) (e5 : Envelope ListReviewsData)
    (e6 : Envelope ReviewData) (e7 : Envelope ProfileData) (e8 : Envelope StyleData)
    (st : Nat) (bm : Option String) (am : String) :
    clientListEntries (.ok e1) = .ok e1.data
    ∧ clientSearchEntries (.ok e4) = .ok e4.data
    ∧ clientListWeeklyReviews (.ok e5) = .ok e5.data
    ∧ clientGetEntry (.ok e2)
        = (match e2.data with
           | some d => .ok d.entry
           | none => .error (.typeError "Cannot read properties of undefined (reading entry)"))
    ∧ clientCreateEntry (.ok e3)
        = (match e3.data with
           | some d => .ok d.entry
           | none => .error (.typeError "Cannot read properties of undefined (reading entry)"))
    ∧ clientGetWeeklyReview (.ok e6)
        = (match e6.data with
           | some d => .ok d.review
           | none => .error (.typeError "Cannot read properties of undefined (reading review)"))
    ∧ clientGetUserProfile (.ok e7)
        = (match e7.data with
           | some d => .ok d.profile
           | none => .error (.typeError "Cannot read properties of undefined (reading profile)"))
    ∧ clientGetWritingStyle (.ok e8)
        = (match e8.data with
           | some d => .ok d.style
           | none => .error (.typeError "Cannot read properties of undefined (reading style)"))
    ∧ clientListEntries (.httpError st bm am) = .error (.apiError st (jsOrOpt bm am))
    ∧ clientGetEntry (.httpError st bm am) = .error (.apiError st (jsOrOpt bm am))
    ∧ clientCreateEntry (.httpError st bm am) = .error (.apiError st (jsOrOpt bm am))
    ∧ clientSearchEntries (.httpError st bm am) = .error (.apiError st (jsOrOpt bm am))
    ∧ clientListWeeklyReviews (.httpError st bm am) = .error (.apiError st (jsOrOpt bm am))
    ∧ clientGetWeeklyReview (.httpError st bm am) = .error (.apiError st (jsOrOpt bm am))
    ∧ clientGetUserProfile (.httpError st bm am) = .error (.apiError st (jsOrOpt bm am))
    ∧ clientGetWritingStyle (.httpError st bm am) = .error (.apiError st (jsOrOpt bm am)) := by
  refine ⟨rfl, rfl, rfl, ?_, ?_, ?_, ?_, ?_, rfl, rfl, rfl, rfl, rfl, rfl, rfl, rfl⟩
  · obtain ⟨x, d, y⟩ := e2
    cases d <;> rfl
  · obtain ⟨x, d, y⟩ := e3
    cases d <;> rfl
  · obtain ⟨x, d, y⟩ := e6
    cases d <;> rfl
  · obtain ⟨x, d, y⟩ := e7
    cases d <;> rfl
  · obtain ⟨x, d, y⟩ := e8
    cases d <;> rfl

/-- Claim C2.  The `JournalOwlClient` class declares no `finalizeEntry`
member, so every invocation of the `journal_finalize_entry` handler throws
a TypeError at the very first statement and performs no client call; the
claimed finalize-entry client method does not exist. -/
theorem finalize_entry_client_method_missing :
    clientJsMethods.contains "finalizeEntry" = false
    ∧ ∀ args : ToolArgs,
        handleFinalizeEntry args
          = (.error (.typeError "this.client.finalizeEntry is not a function"), []) :=
  ⟨by decide, fun _ => rfl⟩

/-- Claim C6, counterexample.  When the backend error body is present with
an empty `message`, the interceptor uses the message of the axios error
object (because `||` treats the empty string as falsy), not the message
from the body as the claim states for every response with a body. -/
theorem interceptor_empty_body_message_uses_axios_message :
    @intercept Unit (.httpError 500 (some "") "Network Error")
      = .error (.apiError 500 "Network Error")
    ∧ (some "" : Option String) ≠ none :=
  ⟨rfl, by decide⟩

/-- Claim C6, amended.  Every HTTP exchange resolves to exactly one of the
three interceptor error kinds or passes through: a received failure-status
response raises the API error carrying that status and the error-body
message when it is present and non-empty (otherwise the transport message);
no response raises the unreachable error; any other local failure raises
the request-failed error. -/
theorem interceptor_error_taxonomy (α : Type) (r : AxiosResult α) :
    ((∃ b, r = .ok b ∧ intercept r = .ok b)
      ∨ (∃ s bm am, r = .httpError s bm am
            ∧ intercept r = .error (.apiError s (jsOrOpt bm am)))
      ∨ (r = .networkError ∧ intercept r = .error .unreachable)
      ∨ (∃ m, r = .setupError m ∧ intercept r = .error (.requestFailed m)))
    ∧ (∀ m alt : String, jsOrOpt (some m) alt = if m = "" then alt else m)
    ∧ (∀ alt : String, jsOrOpt none alt = alt) := by
  refine ⟨?_, fun m alt => rfl, fun alt => rfl⟩
  cases r with
  | ok b => exact Or.inl ⟨b, rfl, rfl⟩
  | httpError s bm am => exact Or.inr (Or.inl ⟨s, bm, am, rfl, rfl⟩)
  | networkError => exact Or.inr (Or.inr (Or.inl ⟨rfl, rfl⟩))
  | setupError m => exact Or.inr (Or.inr (Or.inr ⟨m, rfl, rfl⟩))

/-- Claim C3.  Whenever the create endpoint answers successfully with an
entry, the handler crashes: `client.createEntry` already returns the
unwrapped entry, yet the handler reads `result.entry` (which is
`undefined` on a `JournalEntry`-shaped object) and then `entry.id`, which
throws a TypeError, so the claimed created-entry text result is never
produced. -/
theorem create_entry_handler_type_error (b : Backend) (fmt : String → String)
    (args : ToolArgs) (st : EnvStatus) (m : Option String) (en : JournalEntry)
    (h : b.createEntryR (createInputOf args)
          = .ok { status := st, data := some { entry := en }, message := m }) :
    (handleCreateEntry b fmt args).1
      = .error (.typeError "Cannot read properties of undefined (reading id)") := by
  simp only [handleCreateEntry, h]
  rfl

/-- Claim C3, witness: the crash evaluated at a concrete successful create
response. -/
theorem create_entry_handler_type_error_witness :
    (handleCreateEntry createBackend id {}).1
      = .error (.typeError "Cannot read properties of undefined (reading id)") :=
  create_entry_handler_type_error createBackend id {} .success none sampleEntry rfl

lemma renderGetEntry_sentiment_sub (fmt : String → String) (e : JournalEntry)
    (a : EntryAnalysis) (s : Rat) (ha : e.analysis = some a)
    (hs : a.sentiment = some s) :
    containsSub (renderGetEntry fmt e)
      ("**Sentiment:** " ++ sentimentLabel s ++ " (") := by
  have hbase : ∀ t1 : String,
      containsSub
        (t1 ++ ("**Sentiment:** " ++ sentimentLabel s ++ " (" ++ toFixed2 s ++ ")\n\n"))
        ("**Sentiment:** " ++ sentimentLabel s ++ " (") := by
    intro t1
    refine ⟨t1.data, (toFixed2 s).data ++ ")\n\n".data, ?_⟩
    simp [String.data_append, List.append_assoc]
  simp only [renderGetEntry, ha, hs]
  rcases a.themes with _ | themes <;> rcases a.insights with _ | insights
  · exact hbase _
  · by_cases hi : insights.length > 0 <;> simp only [hi, if_true, if_false, ite_true, ite_false]
    · exact containsSub_append_right _ (hbase _)
    · exact hbase _
  · by_cases ht : themes.length > 0 <;> simp only [ht, ite_true, ite_false]
    · exact containsSub_append_right _ (hbase _)
    · exact hbase _
  · by_cases ht : themes.length > 0 <;> by_cases hi : insights.length > 0 <;>
      simp only [ht, hi, ite_true, ite_false]
    · exact containsSub_append_right _ (containsSub_append_right _ (hbase _))
    · exact containsSub_append_right _ (hbase _)
    · exact containsSub_append_right _ (hbase _)
    · exact hbase _

/-- Claim C4.  When `journal_get_entry` returns an entry whose analysis
carries a sentiment score, the rendered text embeds the label computed by
the strict thresholding: Positive exactly when the score exceeds `0.3`,
Negative exactly when it is below `-0.3`, Neutral otherwise; in particular
`0.3` and `-0.3` render Neutral, `0.5` Positive, `-0.5` Negative and `0.1`
Neutral. -/
theorem get_entry_sentiment_thresholding (b : Backend) (fmt : String → String)
    (args : ToolArgs) (st : EnvStatus) (m : Option String) (en : JournalEntry)
    (a : EntryAnalysis) (s : Rat)
    (h : b.getEntryR args.entry_id (inclAnalysisOf args)
          = .ok { status := st, data := some { entry := en }, message := m })
    (ha : en.analysis = some a) (hs : a.sentiment = some s) :
    (handleGetEntry b fmt args).1 = .ok (renderGetEntry fmt en)
    ∧ containsSub (renderGetEntry fmt en)
        ("**Sentiment:** " ++ sentimentLabel s ++ " (")
    ∧ (sentimentLabel s = "Positive" ↔ 3/10 < s)
    ∧ (sentimentLabel s = "Negative" ↔ s < -3/10)
    ∧ (sentimentLabel s = "Neutral" ↔ (s ≤ 3/10 ∧ -3/10 ≤ s))
    ∧ sentimentLabel (3/10) = "Neutral"
    ∧ sentimentLabel (-3/10) = "Neutral"
    ∧ sentimentLabel (1/2) = "Positive"
    ∧ sentimentLabel (-1/2) = "Negative"
    ∧ sentimentLabel (1/10) = "Neutral" := by
  refine ⟨?_, renderGetEntry_sentiment_sub fmt en a s ha hs, ?_, ?_, ?_, ?_, ?_, ?_, ?_, ?_⟩
  · simp only [handleGetEntry, h]
    rfl
  · by_cases h1 : s > 3/10
    · simp [sentimentLabel, h1]
    · by_cases h2 : s < -3/10 <;> simp [sentimentLabel, h1, h2]
  · by_cases h1 : s > 3/10
    · have hgt : (-3/10 : Rat) < s := lt_trans (by norm_num) h1
      simp [sentimentLabel, h1, not_lt_of_gt hgt]
    · by_cases h2 : s < -3/10 <;> simp [sentimentLabel, h1, h2]
  · by_cases h1 : s > 3/10
    · simp [sentimentLabel, h1, not_le.mpr h1]
    · by_cases h2 : s < -3/10
      · simp [sentimentLabel, h1, h2, not_le.mpr h2]
      · simp [sentimentLabel, h1, h2, not_lt.mp h1, not_lt.mp h2]
  · simp only [sentimentLabel]
    norm_num
  · simp only [sentimentLabel]
    norm_num
  · simp only [sentimentLabel]
    norm_num
  · simp only [sentimentLabel]
    norm_num
  · simp only [sentimentLabel]
    norm_num

/-- Claim C4, witness: the rendering and the Positive label evaluated at a
concrete entry whose sentiment score is `0.5`. -/
theorem get_entry_sentiment_thresholding_witness :
    (handleGetEntry getEntryBackend id {}).1 = .ok (renderGetEntry id sampleEntry)
    ∧ containsSub (renderGetEntry id sampleEntry)
        ("**Sentiment:** " ++ sentimentLabel (1/2) ++ " (")
    ∧ (sentimentLabel (1/2) = "Positive" ↔ 3/10 < (1/2 : Rat)) :=
  let h := get_entry_sentiment_thresholding getEntryBackend id {} .success none
    sampleEntry sampleAnalysis (1/2) rfl rfl rfl
  ⟨h.1, h.2.1, h.2.2.1⟩

/-- Claim C5.  Every entry of a non-empty `journal_search` result is
rendered with a preview equal to the first 150 characters of its content
followed by the three-dot ellipsis; for content of at most 150 characters
the whole content is used and the ellipsis is still appended. -/
theorem search_preview_first150_ellipsis (b : Backend) (fmt : String → String)
    (args : ToolArgs) (st : EnvStatus) (m : Option String) (d : SearchData)
    (e : JournalEntry)
    (h : b.searchEntriesR (searchInputOf args)
          = .ok { status := st, data := some d, message := m })
    (he : e ∈ d.results) (hc : d.count ≠ 0) :
    (∃ t, (handleSearchEntries b fmt args).1 = .ok t
       ∧ containsSub t ("  Preview: " ++ (jsSubstringTo e.content 150 ++ "...")))
    ∧ (jsSubstringTo e.content 150).data = e.content.data.take 150
    ∧ (e.content.length ≤ 150 → jsSubstringTo e.content 150 = e.content) := by
  refine ⟨?_, rfl, ?_⟩
  · have hitem : containsSub (renderSearchItem fmt e)
        ("  Preview: " ++ (jsSubstringTo e.content 150 ++ "...")) := by
      refine ⟨(("- **" ++ e.title ++ "** (" ++ fmt e.date ++ ")\n")
               ++ ("  ID: " ++ e.id ++ "\n")).data, [], ?_⟩
      simp [renderSearchItem, String.data_append, List.append_assoc]
    have hjoin := containsSub_joinSep "\n\n" (renderSearchItem fmt) d.results e he _ hitem
    refine ⟨("Found " ++ toString d.count ++ " entries for \""
             ++ optInterp args.query ++ "\":\n\n")
            ++ joinSep "\n\n" (d.results.map (renderSearchItem fmt)), ?_,
      containsSub_append_left _ hjoin⟩
    simp only [handleSearchEntries, h, clientSearchEntries, intercept]
    rw [if_neg hc]
  · intro hl
    show String.mk (e.content.data.take 150) = e.content
    rw [List.take_of_length_le hl]

/-- Claim C5, witness: the search rendering evaluated on a one-hit result
whose content is shorter than 150 characters. -/
theorem search_preview_first150_ellipsis_witness :
    (∃ t, (handleSearchEntries searchBackend id {}).1 = .ok t
       ∧ containsSub t
           ("  Preview: " ++ (jsSubstringTo sampleEntry.content 150 ++ "...")))
    ∧ sampleEntry.content.length ≤ 150
    ∧ jsSubstringTo sampleEntry.content 150 = sampleEntry.content :=
  let h := search_preview_first150_ellipsis searchBackend id {} .success none
    { query := "day", results := [sampleEntry], count := 1 } sampleEntry
    rfl (List.mem_singleton.mpr rfl) (by decide)
  ⟨h.1, by decide, h.2.2 (by decide)⟩

/-- Claim C7.  Calling any name outside the seven declared tools yields the
unknown-tool error with no client call recorded (and the front-end wraps it
as an internal protocol error carrying the message), while each declared
name dispatches to exactly that tool handler. -/
theorem tool_dispatch_and_unknown_tool (b : Backend) (fmt : String → String)
    (args : ToolArgs) (name : String) :
    (name ∉ toolNames →
       handleToolCall b fmt name args
         = (.error (.otherError ("Unknown tool: " ++ name)), [])
       ∧ callToolRequest b fmt name args
         = (.error (.internalError
              ("Tool " ++ name ++ " failed: " ++ ("Unknown tool: " ++ name))), []))
    ∧ handleToolCall b fmt "journal_create_entry" args = handleCreateEntry b fmt args
    ∧ handleToolCall b fmt "journal_finalize_entry" args = handleFinalizeEntry args
    ∧ handleToolCall b fmt "journal_list_entries" args = handleListEntries b fmt args
    ∧ handleToolCall b fmt "journal_get_entry" args = handleGetEntry b fmt args
    ∧ handleToolCall b fmt "journal_search" args = handleSearchEntries b fmt args
    ∧ handleToolCall b fmt "journal_get_weekly_review" args
        = handleGetWeeklyReview b fmt args
    ∧ handleToolCall b fmt "journal_get_writing_style" args
        = handleGetWritingStyle b := by
  refine ⟨?_, rfl, rfl, rfl, rfl, rfl, rfl, rfl⟩
  intro hmem
  simp only [toolNames, List.mem_cons, List.not_mem_nil, or_false, not_or] at hmem
  obtain ⟨h1, h2, h3, h4, h5, h6, h7⟩ := hmem
  have hcall : handleToolCall b fmt name args
      = (.error (.otherError ("Unknown tool: " ++ name)), []) := by
    simp only [handleToolCall, if_neg h1, if_neg h2, if_neg h3, if_neg h4,
      if_neg h5, if_neg h6, if_neg h7]
  refine ⟨hcall, ?_⟩
  simp only [callToolRequest, hcall]
  rfl

/-- Claim C7, witness: an undeclared tool name evaluated concretely. -/
theorem tool_dispatch_and_unknown_tool_witness :
    handleToolCall defaultBackend id "journal_delete_entry" {}
      = (.error (.otherError ("Unknown tool: " ++ "journal_delete_entry")), [])
    ∧ callToolRequest defaultBackend id "journal_delete_entry" {}
      = (.error (.internalError ("Tool " ++ "journal_delete_entry" ++ " failed: "
           ++ ("Unknown tool: " ++ "journal_delete_entry"))), []) :=
  (tool_dispatch_and_unknown_tool defaultBackend id {} "journal_delete_entry").1
    (by decide)

/-- Claim C8.  Reading any identifier other than the two declared resource
URIs yields the unknown-resource error with no client call recorded, and
each declared URI performs exactly one client call: the profile read calls
`getUserProfile`, the recent-entries read calls `listEntries` with only
`limit = 5` set. -/
theorem resource_dispatch_and_unknown_resource (b : Backend)
    (fmt : String → String) (uri : String) :
    (uri ∉ resourceUris →
       handleResourceRead b fmt uri
         = (.error (.otherError ("Unknown resource: " ++ uri)), []))
    ∧ (handleResourceRead b fmt "journalowl://user/profile").2
        = [ClientCall.getUserProfile]
    ∧ (handleResourceRead b fmt "journalowl://user/recent-entries").2
        = [ClientCall.listEntries recentParams]
    ∧ recentParams
        = { limit := some 5, offset := none, from_date := none,
            to_date := none, status := none, tags := none } := by
  refine ⟨?_, ?_, ?_, rfl⟩
  · intro hmem
    simp only [resourceUris, List.mem_cons, List.not_mem_nil, or_false, not_or] at hmem
    obtain ⟨h1, h2⟩ := hmem
    simp only [handleResourceRead, if_neg h1, if_neg h2]
  · show (handleProfileResource b fmt).2 = [ClientCall.getUserProfile]
    unfold handleProfileResource
    cases hc : clientGetUserProfile b.getUserProfileR <;> simp [hc]
  · show (handleRecentEntriesResource b fmt).2 = [ClientCall.listEntries recentParams]
    unfold handleRecentEntriesResource
    cases hc : clientListEntries (b.listEntriesR recentParams) with
    | error e => simp [hc]
    | ok o =>
      cases o with
      | none => simp [hc]
      | some r => by_cases hl : r.entries.length = 0 <;> simp [hc, hl]

/-- Claim C8, witness: an undeclared resource URI evaluated concretely. -/
theorem resource_dispatch_and_unknown_resource_witness :
    handleResourceRead defaultBackend id "journalowl://user/settings"
      = (.error (.otherError ("Unknown resource: " ++ "journalowl://user/settings")), []) :=
  (resource_dispatch_and_unknown_resource defaultBackend id
    "journalowl://user/settings").1 (by decide)

/-- Claim C9.  For every non-empty `journal_list_entries` result the
rendered text opens by reporting the pagination total and the number of
entries shown, and closes with the next-offset hint exactly when the
pagination `hasMore` flag is set, the hinted offset being the requested
offset (0 when absent) plus the number of entries returned. -/
theorem list_entries_pagination_render (b : Backend) (fmt : String → String)
    (args : ToolArgs) (st : EnvStatus) (m : Option String) (r : ListEntriesData)
    (h : b.listEntriesR (paramsOfArgs args)
          = .ok { status := st, data := some r, message := m })
    (hne : r.entries ≠ []) :
    ∃ mid, (handleListEntries b fmt args).1
      = .ok ("Found " ++ toString r.pagination.total ++ " entries (showing "
             ++ toString r.entries.length ++ "):\n\n" ++ mid
             ++ (if r.pagination.hasMore then
                   "\n\nMore entries available. Use offset="
                   ++ toString (jsOrZero args.offset + r.entries.length)
                   ++ " to see more."
                 else "")) := by
  have hlen : ¬ r.entries.length = 0 := by
    simpa [List.length_eq_zero] using hne
  refine ⟨joinSep "\n\n" (r.entries.map (renderListItem fmt)), ?_⟩
  simp only [handleListEntries, h, clientListEntries, intercept]
  rw [if_neg hlen]
  rfl

/-- Claim C9, witness: the rendering evaluated on a one-entry page with
`total = 3` and `hasMore = true` requested with no offset. -/
theorem list_entries_pagination_render_witness :
    ∃ mid, (handleListEntries listBackend id {}).1
      = .ok ("Found " ++ toString listData9.pagination.total ++ " entries (showing "
             ++ toString listData9.entries.length ++ "):\n\n" ++ mid
             ++ (if listData9.pagination.hasMore then
                   "\n\nMore entries available. Use offset="
                   ++ toString (jsOrZero (ToolArgs.offset {}) + listData9.entries.length)
                   ++ " to see more."
                 else "")) :=
  list_entries_pagination_render listBackend id {} .success none listData9 rfl
    (by decide)

/-- Claim C10.  When the backend returns zero matching items, the three
renderers return their fixed texts and nothing else: the list tool its
fixed no-entries sentence, the search tool its fixed sentence quoting the
query, and the recent-entries resource its fixed new-user notice. -/
theorem empty_results_fixed_texts (b : Backend) (fmt : String → String)
    (args : ToolArgs) (st1 st2 st3 : EnvStatus) (m1 m2 m3 : Option String)
    (r1 r3 : ListEntriesData) (r2 : SearchData) (q : String) :
    (b.listEntriesR (paramsOfArgs args)
        = .ok { status := st1, data := some r1, message := m1 } →
     r1.entries = [] →
     (handleListEntries b fmt args).1
       = .ok "No journal entries found matching your criteria.")
    ∧ (b.searchEntriesR (searchInputOf args)
         = .ok { status := st2, data := some r2, message := m2 } →
       r2.count = 0 → r2.results = [] → args.query = some q →
       (handleSearchEntries b fmt args).1
         = .ok ("No entries found matching \"" ++ q ++ "\"."))
    ∧ (b.listEntriesR recentParams
         = .ok { status := st3, data := some r3, message := m3 } →
       r3.entries = [] →
       (handleRecentEntriesResource b fmt).1
         = .ok { uri := "journalowl://user/recent-entries", mimeType := "text/plain",
                 text := "No recent journal entries found. The user may be new to journaling." }) := by
  refine ⟨?_, ?_, ?_⟩
  · intro h h0
    simp only [handleListEntries, h, clientListEntries, intercept, h0,
      List.length_nil, if_pos]
  · intro h h0 _ hq
    simp only [handleSearchEntries, h, clientSearchEntries, intercept, h0,
      hq, optInterp, Option.getD_some, if_pos]
  · intro h h0
    simp only [handleRecentEntriesResource, h, clientListEntries, intercept, h0,
      List.length_nil, if_pos]

/-- Claim C10, witness: the three fixed texts evaluated on concrete empty
backend answers. -/
theorem empty_results_fixed_texts_witness :
    (handleListEntries emptyBackend id searchArgs).1
      = .ok "No journal entries found matching your criteria."
    ∧ (handleSearchEntries emptyBackend id searchArgs).1
      = .ok ("No entries found matching \"" ++ "sunsets" ++ "\".")
    ∧ (handleRecentEntriesResource emptyBackend id).1
      = .ok { uri := "journalowl://user/recent-entries", mimeType := "text/plain",
              text := "No recent journal entries found. The user may be new to journaling." } :=
  let h := empty_results_fixed_texts emptyBackend id searchArgs
    .success .success .success none none none emptyListData emptyListData
    emptySearchData "sunsets"
  ⟨h.1 rfl rfl, h.2.1 rfl rfl rfl rfl, h.2.2 rfl rfl⟩
